import Mathlib

/-!
Verification of the SmartSync-Lighting core against its specification.

The development shallowly embeds the Python sources:
  * `src/core/color_processor.py`   — palette extraction, filtering, blending;
  * `src/core/lighting_orchestrator.py` — color selection, apply step, polling tick;
  * `src/endpoints/smartthings_endpoint.py` — endpoint construction and connection.

Modelling conventions:
  * RGB colors are lists of channel values (`List ℕ`), matching the Python tuples
    (this also captures the empty tuple, which Python treats as falsy).
  * Python float arithmetic on the small quantities involved (channel averages,
    blend weights) is modelled exactly over `ℚ`.
  * Library effects with no algorithmic content in the repository (PIL decoding,
    OpenCV k-means, HTTP calls) are abstract parameters; everything downstream of
    them (dark filtering, truncation, blending, selection, state updates) is
    translated from the source.
  * Python exceptions are modelled with `Except PyErr`; a `try/except` block is a
    `match` on the body's result.
-/

namespace SmartSync

/-- An RGB color as the Python code handles it: a tuple of channel values,
modelled as a list of naturals (normally of length 3). -/
abbrev Color := List ℕ

/-- Python exception classes relevant to the embedded code paths. -/
inductive PyErr where
  | importError
  | valueError
  | typeError
  | unidentifiedImage
  | requestError
  deriving DecidableEq

/-- `ColorProcessor.is_color_too_dark` (color_processor.py:106-117):
`sum(color) / 3 < threshold` with the default threshold 30; Python's true
division is modelled exactly over `ℚ`. -/
def is_color_too_dark (color : Color) : Bool :=
  decide ((color.sum : ℚ) / 3 < 30)

/-- `ColorProcessor.is_color_displayable` (color_processor.py:136-148):
`all(20 <= c <= 235 for c in color)`. -/
def is_color_displayable (color : Color) : Bool :=
  color.all (fun c => 20 ≤ c && c ≤ 235)

/-- `ColorProcessor.normalize_color` (color_processor.py:120-133):
each channel divided by 255, modelled over `ℚ`. -/
def normalize_color (color : Color) : List ℚ :=
  color.map (fun c => (c : ℚ) / 255)

/-- Python's built-in `round` applied to the nonnegative quantities in
`_blend_colors`: round half to even. -/
def pyRound (q : ℚ) : ℤ :=
  let f := ⌊q⌋
  let r := q - f
  if r < 1 / 2 then f
  else if 1 / 2 < r then f + 1
  else if f % 2 = 0 then f else f + 1

/-- Order-preserving removal of duplicates, keeping the first occurrence:
the `seen`-set comprehension in `_blend_colors` (color_processor.py:197-199). -/
def dedupFirstSeen (l : List Color) : List Color :=
  go [] l
where
  /-- Recursion with the set of colors already emitted. -/
  go (seen : List Color) : List Color → List Color
    | [] => []
    | c :: rest => if seen.contains c then go seen rest else c :: go (c :: seen) rest

/-- `ColorProcessor._blend_colors` (color_processor.py:173-201): take
`round(center_weight·len(center))` leading center colors and
`round(global_weight·len(global))` leading global colors, concatenate, and
drop exact duplicates keeping first-seen order. -/
def blend_colors (center_colors global_colors : List Color)
    (center_weight global_weight : ℚ) : List Color :=
  let num_center_colors := (pyRound (center_weight * center_colors.length)).toNat
  let num_global_colors := (pyRound (global_weight * global_colors.length)).toNat
  dedupFirstSeen
    (center_colors.take num_center_colors ++ global_colors.take num_global_colors)

/-- Abstraction of the imaging libraries used by `_extract_colors_opencv`:
`clusters bytes k focus_center` is the list of k-means cluster centroids of the
decoded, resized (and, when `focus_center`, center-cropped) image, sorted by
descending cluster population — `none` when the bytes do not decode to an image.
`cv2_available` records whether `import cv2` succeeds.  Everything after this
point in `_extract_colors_opencv` (dark filtering, truncation) is translated
from the source. -/
structure Vision where
  cv2_available : Bool
  clusters : List ℕ → ℕ → Bool → Option (List Color)

/-- `ColorProcessor._extract_colors_opencv` (color_processor.py:43-103):
decode (raising `UnidentifiedImageError` on unreadable bytes, and
`ImportError` when OpenCV is missing), cluster into `num_colors * 2` clusters,
sort by population, filter out too-dark colors, and keep at most
`num_colors` of them. -/
def extract_colors_opencv (V : Vision) (image_data : List ℕ) (num_colors : ℕ)
    (focus_center : Bool) : Except PyErr (List Color) :=
  if !V.cv2_available then .error .importError
  else
    match V.clusters image_data (num_colors * 2) focus_center with
    | none => .error .unidentifiedImage
    | some sorted_colors =>
      let filtered_colors := sorted_colors.filter (fun c => !is_color_too_dark c)
      .ok (filtered_colors.take num_colors)

/-- The dictionary returned by `ColorProcessor.extract_dominant_colors`.  The
OpenCV-unavailable fallback returns a dictionary holding only
`'blended_colors'`, hence the optional center/global fields. -/
structure PaletteDict where
  center_colors : Option (List Color)
  global_colors : Option (List Color)
  blended_colors : List Color
  deriving DecidableEq

/-- `ColorProcessor.extract_dominant_colors` (color_processor.py:9-41):
extract center and global colors, blend them with weights
`focus_percentage / 100` and `1 - focus_percentage / 100`; only `ImportError`
is caught (yielding the all-white fallback dictionary) — any other exception
propagates to the caller. -/
def extract_dominant_colors (V : Vision) (image_data : List ℕ) (num_colors : ℕ)
    (focus_percentage : ℚ) : Except PyErr PaletteDict :=
  let body : Except PyErr PaletteDict := do
    let center_colors ← extract_colors_opencv V image_data num_colors true
    let global_colors ← extract_colors_opencv V image_data num_colors false
    let center_weight := focus_percentage / 100
    let global_weight := 1 - center_weight
    pure ⟨some center_colors, some global_colors,
      blend_colors center_colors global_colors center_weight global_weight⟩
  match body with
  | .error .importError =>
      .ok ⟨none, none, List.replicate num_colors [255, 255, 255]⟩
  | r => r

/-- A currently-playing track as returned by `SpotifyHandler.get_current_track`
(spotify_handler.py:17-36): a dictionary with `name`, `artist` and `album_art`
(an optional URL).  Equality is Python dictionary equality, i.e. by value. -/
structure Track where
  name : String
  artist : String
  album_art : Option String
  deriving DecidableEq

/-- A configured lighting endpoint as the orchestrator sees it: an identifier
plus the (abstract, network-dependent) outcome of its `set_color` method —
`.error e` models the call raising, `.ok b` the call returning `b`. -/
structure Endpoint where
  id : ℕ
  set_color : Color → Except PyErr Bool

deriving instance DecidableEq for Except

/-- One `endpoint.set_color(color)` call issued by `_apply_color`, with the
outcome the endpoint reported (exceptions are caught by the orchestrator). -/
structure WriteEvent where
  endpoint : ℕ
  color : Color
  result : Except PyErr Bool
  deriving DecidableEq

/-- `LightingOrchestrator._apply_color` (lighting_orchestrator.py:87-114):
skip falsy (absent/empty) colors and colors equal to `_last_applied_color`;
otherwise record the new color as last applied — before any device call — and
issue one `set_color` call per endpoint, catching per-endpoint exceptions.
Returns the new `_last_applied_color` and the list of issued calls. -/
def apply_color (endpoints : List Endpoint) (last : Option Color)
    (color : Option Color) : Option Color × List WriteEvent :=
  match color with
  | none => (last, [])
  | some c =>
    if c.isEmpty then (last, [])
    else if some c = last then (last, [])
    else (some c, endpoints.map (fun e => ⟨e.id, c, e.set_color c⟩))

/-- `LightingOrchestrator._apply_default_color` (lighting_orchestrator.py:78-85):
apply the fixed default `(255, 255, 255)`. -/
def apply_default_color (endpoints : List Endpoint) (last : Option Color) :
    Option Color × List WriteEvent :=
  apply_color endpoints last (some [255, 255, 255])

/-- A list is a possible result of the Python `set`-comprehension
deduplication in `_select_displayable_color` (lighting_orchestrator.py:142):
duplicate-free and with exactly the original members.  CPython's `set`
iteration order is implementation-defined, so the embedding quantifies over
every order satisfying this predicate. -/
def IsSetDedup (orig dedup : List Color) : Prop :=
  dedup.Nodup ∧ ∀ c, c ∈ dedup ↔ c ∈ orig

/-- The scan in `_select_displayable_color` after deduplication
(lighting_orchestrator.py:144-153): drop too-dark colors, return the first
displayable one, else the fixed white fallback. -/
def select_from_candidates (all_colors : List Color) : Color :=
  let filtered_colors := all_colors.filter (fun c => !is_color_too_dark c)
  match filtered_colors.find? (fun c => is_color_displayable c) with
  | some c => c
  | none => [255, 255, 255]

/-- `LightingOrchestrator._select_displayable_color`
(lighting_orchestrator.py:127-153).  The set-based deduplication order is a
parameter `dedupOrder`, constrained in theorems by `IsSetDedup`. -/
def select_displayable_color (dedupOrder : List Color → List Color)
    (colors : PaletteDict) : Color :=
  let center_colors := colors.center_colors.getD []
  let global_colors := colors.global_colors.getD []
  select_from_candidates (dedupOrder (center_colors ++ global_colors))

/-- The tuple-unpacking `r, g, b = [x / 255.0 for x in rgb]` at the head of
`SmartThingsEndpoint._rgb_to_hue` (smartthings_endpoint.py:118): raises unless
the color has exactly three channels.  The HSL numerics themselves are not
needed by any claim. -/
def rgb_to_hue_check (rgb : Color) : Except PyErr Unit :=
  if rgb.length = 3 then .ok () else .error .valueError

/-- `LightingOrchestrator._sync_lighting` (lighting_orchestrator.py:47-76):
with no track or a falsy `album_art`, apply the default color.  Otherwise
download the artwork (`download` yields `none` on any failure, after which
`io.BytesIO(None)` raises `TypeError` inside the extraction call), extract the
palette, select a color, convert it, and apply it; the surrounding
`except Exception` catches any raised error and merely logs it, applying
nothing.  Returns the new `_last_applied_color` and the issued calls. -/
def sync_lighting (V : Vision) (dedupOrder : List Color → List Color)
    (download : String → Option (List ℕ)) (endpoints : List Endpoint)
    (last : Option Color) (track_info : Option Track) :
    Option Color × List WriteEvent :=
  match track_info with
  | none => apply_default_color endpoints last
  | some t =>
    match t.album_art with
    | none => apply_default_color endpoints last
    | some url =>
      if url.isEmpty then apply_default_color endpoints last
      else
        let body : Except PyErr (Option Color × List WriteEvent) := do
          match download url with
          | none => .error .typeError
          | some album_art => do
            let colors ← extract_dominant_colors V album_art 3 50
            let displayable_color := select_displayable_color dedupOrder colors
            let _ ← rgb_to_hue_check displayable_color
            pure (apply_color endpoints last (some displayable_color))
        match body with
        | .ok r => r
        | .error _ => (last, [])

/-- The loop-local and instance state read and written by one iteration of
`LightingOrchestrator._polling_loop` (lighting_orchestrator.py:155-192). -/
structure LoopState where
  currentTrack : Option Track
  lastAppliedColor : Option Color
  lastTrackCheck : Option ℚ
  retries : ℕ
  noTrackLogged : Bool
  deriving DecidableEq

/-- One iteration of `_polling_loop` (lighting_orchestrator.py:161-188), given
the current time and the fetched track.  A new track (by value) triggers the
sync pipeline and resets the retry state; with no track past the 10-second
grace window the loop retries up to `max_retries = 3` times and then syncs
with a null track (applying the default color) and resets the counter;
otherwise the iteration does nothing. -/
def polling_tick (V : Vision) (dedupOrder : List Color → List Color)
    (download : String → Option (List ℕ)) (endpoints : List Endpoint)
    (s : LoopState) (now : ℚ) (fetched : Option Track) :
    LoopState × List WriteEvent :=
  match fetched with
  | some t =>
    if some t ≠ s.currentTrack then
      let r := sync_lighting V dedupOrder download endpoints s.lastAppliedColor (some t)
      (⟨some t, r.1, some now, 0, false⟩, r.2)
    else (s, [])
  | none =>
    if now - s.lastTrackCheck.getD 0 > 10 then
      if s.retries < 3 then
        (⟨s.currentTrack, s.lastAppliedColor, s.lastTrackCheck, s.retries + 1, true⟩, [])
      else
        let r := sync_lighting V dedupOrder download endpoints s.lastAppliedColor none
        (⟨s.currentTrack, r.1, s.lastTrackCheck, 0, true⟩, r.2)
    else (s, [])

/-- An entry of the endpoints configuration list (endpoints.json), as consumed
by `_initialize_endpoints`: a `type` tag and an optional `device_id`. -/
structure EndpointConfig where
  etype : String
  device_id : Option String
  deriving DecidableEq

/-- A constructed SmartThings endpoint: its device id and access token. -/
structure STEndpoint where
  device_id : String
  access_token : Option String
  deriving DecidableEq

/-- `SmartThingsEndpoint.__init__` (smartthings_endpoint.py:10-26): raises
`ValueError` when the configured `device_id` is falsy (absent or empty). -/
def smartthings_init (access_token : Option String) (cfg : EndpointConfig) :
    Except PyErr STEndpoint :=
  match cfg.device_id with
  | none => .error .valueError
  | some d => if d.isEmpty then .error .valueError else .ok ⟨d, access_token⟩

/-- `SmartThingsEndpoint.connect` (smartthings_endpoint.py:28-49): false with
no access token; otherwise the outcome of the device GET request, abstracted
as `netOk` (its own exceptions are caught and yield false). -/
def st_connect (netOk : String → Bool) (e : STEndpoint) : Bool :=
  match e.access_token with
  | none => false
  | some tok => if tok.isEmpty then false else netOk e.device_id

/-- `LightingOrchestrator._initialize_endpoints`
(lighting_orchestrator.py:20-45): build each configured `smartthings`
endpoint, keeping the ones that connect; any exception raised while
initializing an endpoint is caught, logged, and the endpoint skipped — the
function always returns a plain list. -/
def initialize_endpoints (access_token : Option String) (netOk : String → Bool) :
    List EndpointConfig → List STEndpoint
  | [] => []
  | cfg :: rest =>
    let tail := initialize_endpoints access_token netOk rest
    if cfg.etype = "smartthings" then
      match smartthings_init access_token cfg with
      | .error _ => tail
      | .ok e => if st_connect netOk e then e :: tail else tail
    else tail

/-- `LightingOrchestrator.start` (lighting_orchestrator.py:194-205): with no
connected endpoints (outside test mode) it logs and returns without starting;
otherwise it launches the polling loop.  Returns whether the loop was
launched; the method never raises. -/
def start (test_mode : Bool) (endpoints : List STEndpoint) : Bool :=
  if !test_mode && endpoints.isEmpty then false else true

/-! ### Helper lemmas -/

/-- The dark test over exact rationals coincides with the integral comparison
`sum < 90`; this makes concrete evaluations kernel-computable. -/
theorem is_color_too_dark_eq (c : Color) :
    is_color_too_dark c = decide (c.sum < 90) := by
  unfold is_color_too_dark
  rw [decide_eq_decide, div_lt_iff₀ (by norm_num : (0:ℚ) < 3),
    (by norm_num : (30:ℚ) * 3 = 90)]
  exact_mod_cast Iff.rfl

/-- `List.dedup` is one admissible result of the Python `set`-based
deduplication: duplicate-free, with the same members. -/
theorem isSetDedup_dedup (l : List Color) : IsSetDedup l (List.dedup l) :=
  ⟨l.nodup_dedup, fun _ => List.mem_dedup⟩

/-- The post-deduplication scan yields either the white fallback or a
displayable member of its input. -/
theorem select_from_candidates_cases (l : List Color) :
    select_from_candidates l = [255, 255, 255] ∨
      (is_color_displayable (select_from_candidates l) = true ∧
        select_from_candidates l ∈ l) := by
  simp only [select_from_candidates]
  split
  case h_1 c h =>
    exact Or.inr ⟨List.find?_some h, List.mem_of_mem_filter (List.mem_of_find?_eq_some h)⟩
  case h_2 h => exact Or.inl rfl

/-- If the scan falls back to white, then no member of its input that passes
the dark filter is displayable. -/
theorem select_from_candidates_white (l : List Color)
    (hw : select_from_candidates l = [255, 255, 255]) :
    ∀ x ∈ l, is_color_too_dark x = false → is_color_displayable x = false := by
  intro x hx hdark
  have hxf : x ∈ l.filter (fun c => !is_color_too_dark c) :=
    List.mem_filter.mpr ⟨hx, by simp [hdark]⟩
  simp only [select_from_candidates] at hw
  rcases h : List.find? (fun c => is_color_displayable c)
      (l.filter (fun c => !is_color_too_dark c)) with _ | c
  · have := List.find?_eq_none.mp h x hxf
    simpa using this
  · rw [h] at hw
    simp only at hw
    subst hw
    have hc := List.find?_some h
    exact absurd hc (by decide)

/-- Every `set_color` call issued by `_apply_color` carries exactly the color
being applied. -/
theorem apply_color_writes_color (endpoints : List Endpoint)
    (last : Option Color) (c : Color) (ev : WriteEvent)
    (hev : ev ∈ (apply_color endpoints last (some c)).2) : ev.color = c := by
  unfold apply_color at hev
  by_cases h1 : c.isEmpty
  · simp [h1] at hev
  · by_cases h2 : some c = last
    · simp [h1, h2] at hev
    · simp only [h1, h2, Bool.false_eq_true, if_false, List.mem_map] at hev
      rcases hev with ⟨e, _, hev⟩
      rw [← hev]

/-- Evaluation of Python `round` at one half. -/
theorem pyRound_half : pyRound ((1:ℚ)/2) = 0 := by
  unfold pyRound
  norm_num

/-! ### Specification-side reference definitions -/

/-- The §4.2 selection rule as the spec words it, for comparison with
`_select_displayable_color`: scan the center-focused colors then the global
colors, preserving each list's order, and return the first displayable one;
if none is displayable return the first candidate; with no candidates at all
return the fixed default. -/
def spec_select (colors : PaletteDict) : Color :=
  let candidates := colors.center_colors.getD [] ++ colors.global_colors.getD []
  match candidates.find? (fun c => is_color_displayable c) with
  | some c => c
  | none => candidates.headD [255, 255, 255]

/-- The §4.1 blending rule as the spec words it, for comparison with
`_blend_colors`: the first `round(f·len(center))` center entries followed by
the first `round((1-f)·len(global))` global entries, with exact duplicates
removed preserving first-seen order. -/
def spec_blended (center glob : List Color) (f : ℚ) : List Color :=
  dedupFirstSeen (center.take (pyRound (f * center.length)).toNat ++
    glob.take (pyRound ((1 - f) * glob.length)).toNat)

/-! ### Concrete fixtures for witnesses and counterexamples -/

/-- A vision backend whose clustering always yields the single mid-range color
`(100,150,200)`. -/
def Vw : Vision := ⟨true, fun _ _ _ => some [[100, 150, 200]]⟩

/-- A vision backend for which no byte string decodes (every input is treated
as an unreadable image). -/
def Vbad : Vision := ⟨true, fun _ _ _ => none⟩

/-- An artwork downloader that always succeeds with a one-byte payload. -/
def dlw : String → Option (List ℕ) := fun _ => some [1]

/-- An endpoint whose `set_color` always succeeds. -/
def epw : Endpoint := ⟨0, fun _ => .ok true⟩

/-- An endpoint whose `set_color` always raises. -/
def epFail : Endpoint := ⟨0, fun _ => .error .requestError⟩

/-- A concrete currently-playing track with an artwork URL. -/
def trw : Track := ⟨"Song", "Artist", some "url"⟩

/-- Evaluation of the extraction pipeline on the `Vw` fixture. -/
theorem extract_eval : extract_dominant_colors Vw [1] 3 50 =
    .ok ⟨some [[100, 150, 200]], some [[100, 150, 200]], []⟩ := by
  simp only [extract_dominant_colors, extract_colors_opencv, Vw, blend_colors,
    is_color_too_dark_eq, dedupFirstSeen, bind, Except.bind, pure, Except.pure]
  norm_num [pyRound_half, dedupFirstSeen.go]

/-- Evaluation of a full successful sync pipeline run on the `Vw` fixture. -/
theorem sync_eval : sync_lighting Vw List.dedup dlw [epw] none (some trw) =
    (some [100, 150, 200], [⟨0, [100, 150, 200], .ok true⟩]) := by
  simp only [sync_lighting, dlw, trw, extract_eval, bind, Except.bind, pure, Except.pure]
  simp only [select_displayable_color, select_from_candidates, is_color_too_dark_eq]
  norm_num [rgb_to_hue_check, apply_color, epw, List.dedup, List.pwFilter]
  decide

/-! ### Candidate provenance lemmas -/

/-- Every color returned by `_extract_colors_opencv` survives its own dark
filter. -/
theorem extract_colors_opencv_not_dark (V : Vision) (image : List ℕ)
    (num : ℕ) (focus : Bool) (cs : List Color)
    (h : extract_colors_opencv V image num focus = .ok cs) :
    ∀ c ∈ cs, is_color_too_dark c = false := by
  intro c hc
  unfold extract_colors_opencv at h
  by_cases hcv : V.cv2_available = true
  · simp only [hcv, Bool.not_true, Bool.false_eq_true, if_false] at h
    rcases hV : V.clusters image (num * 2) focus with _ | sorted
    · rw [hV] at h
      exact absurd h (by simp)
    · rw [hV] at h
      simp only [Except.ok.injEq] at h
      subst h
      have hf := List.mem_of_mem_take hc
      have := List.of_mem_filter hf
      simpa using this
  · simp only [Bool.not_eq_true] at hcv
    simp [hcv] at h

/-- Every candidate exposed by a successful `extract_dominant_colors` call (in
either the center or the global list) survives the extractor's dark filter. -/
theorem extract_dominant_not_dark (V : Vision) (image : List ℕ) (num : ℕ)
    (p : ℚ) (pd : PaletteDict)
    (h : extract_dominant_colors V image num p = .ok pd) :
    ∀ d ∈ pd.center_colors.getD [] ++ pd.global_colors.getD [],
      is_color_too_dark d = false := by
  intro d hd
  unfold extract_dominant_colors at h
  rcases h1 : extract_colors_opencv V image num true with e | center
  · rcases e <;> simp only [h1, bind, Except.bind] at h <;> first
      | (simp only [Except.ok.injEq] at h; subst h; simp at hd)
      | exact absurd h (by simp)
  · rcases h2 : extract_colors_opencv V image num false with e | glob
    · rcases e <;> simp only [h1, h2, bind, Except.bind] at h <;> first
        | (simp only [Except.ok.injEq] at h; subst h; simp at hd)
        | exact absurd h (by simp)
    · simp only [h1, h2, bind, Except.bind, pure, Except.pure,
        Except.ok.injEq] at h
      subst h
      simp only [Option.getD_some] at hd
      rcases List.mem_append.mp hd with hdc | hdg
      · exact extract_colors_opencv_not_dark V image num true center h1 d hdc
      · exact extract_colors_opencv_not_dark V image num false glob h2 d hdg

/-- The selected color is displayable unless it is the white fallback. -/
theorem select_displayable_color_cases (dedupOrder : List Color → List Color)
    (pd : PaletteDict) :
    is_color_displayable (select_displayable_color dedupOrder pd) = true ∨
      select_displayable_color dedupOrder pd = [255, 255, 255] := by
  unfold select_displayable_color
  rcases select_from_candidates_cases
      (dedupOrder (pd.center_colors.getD [] ++ pd.global_colors.getD [])) with h | h
  · exact Or.inr h
  · exact Or.inl h.1

/-- If the selector falls back to white, no candidate passing the dark filter
is displayable. -/
theorem select_white_no_displayable (dedupOrder : List Color → List Color)
    (hd : ∀ l, IsSetDedup l (dedupOrder l)) (pd : PaletteDict)
    (hdark : ∀ d ∈ pd.center_colors.getD [] ++ pd.global_colors.getD [],
      is_color_too_dark d = false)
    (hw : select_displayable_color dedupOrder pd = [255, 255, 255]) :
    ∀ d ∈ pd.center_colors.getD [] ++ pd.global_colors.getD [],
      is_color_displayable d = false := by
  intro d hdm
  have hmem : d ∈ dedupOrder (pd.center_colors.getD [] ++ pd.global_colors.getD []) :=
    ((hd _).2 d).mpr hdm
  exact select_from_candidates_white _ hw d hmem (hdark d hdm)

/-! ### Claim C1 -/

/-- C1: in every sync pipeline run, each color handed to a device endpoint is
either displayable per the §4.2 predicate or the fixed fallback
`(255,255,255)`; and the fallback is selected only when no displayable color
exists among the candidates exposed by the extraction call. -/
theorem C1_sync_forwards_displayable_or_fallback
    (V : Vision) (dedupOrder : List Color → List Color)
    (download : String → Option (List ℕ)) (endpoints : List Endpoint)
    (last : Option Color) (track_info : Option Track)
    (hd : ∀ l, IsSetDedup l (dedupOrder l)) :
    (∀ ev ∈ (sync_lighting V dedupOrder download endpoints last track_info).2,
        is_color_displayable ev.color = true ∨ ev.color = [255, 255, 255]) ∧
    (∀ (image : List ℕ) (num : ℕ) (p : ℚ) (pd : PaletteDict),
        extract_dominant_colors V image num p = .ok pd →
        select_displayable_color dedupOrder pd = [255, 255, 255] →
        ∀ d ∈ pd.center_colors.getD [] ++ pd.global_colors.getD [],
          is_color_displayable d = false) := by
  constructor
  · intro ev hev
    rcases track_info with _ | t
    · simp only [sync_lighting, apply_default_color] at hev
      exact Or.inr (apply_color_writes_color _ _ _ _ hev)
    · rcases hart : t.album_art with _ | url
      · simp only [sync_lighting, hart, apply_default_color] at hev
        exact Or.inr (apply_color_writes_color _ _ _ _ hev)
      · simp only [sync_lighting, hart] at hev
        by_cases hu : url.isEmpty = true
        · simp only [hu, if_true, apply_default_color] at hev
          exact Or.inr (apply_color_writes_color _ _ _ _ hev)
        · simp only [hu, Bool.false_eq_true, if_false] at hev
          rcases hdl : download url with _ | bytes
          · simp [hdl] at hev
          · rcases hx : extract_dominant_colors V bytes 3 50 with e | pd
            · simp [hdl, hx, bind, Except.bind] at hev
            · simp only [hdl, hx, bind, Except.bind] at hev
              rcases hh : rgb_to_hue_check (select_displayable_color dedupOrder pd)
                  with e | u
              · simp [hh] at hev
              · simp only [hh, pure, Except.pure] at hev
                have hc := apply_color_writes_color _ _ _ _ hev
                rw [hc]
                rcases select_displayable_color_cases dedupOrder pd with h | h
                · exact Or.inl h
                · exact Or.inr h
  · intro image num p pd hx hw
    exact select_white_no_displayable dedupOrder hd pd
      (extract_dominant_not_dark V image num p pd hx) hw

/-- C1 witness: on the concrete `Vw` pipeline run the issued write carries
`(100,150,200)`, which the theorem certifies to be displayable or white. -/
theorem C1_sync_forwards_displayable_or_fallback_witness :
    is_color_displayable (WriteEvent.color ⟨0, [100, 150, 200], .ok true⟩) = true ∨
      WriteEvent.color ⟨0, [100, 150, 200], .ok true⟩ = [255, 255, 255] :=
  (C1_sync_forwards_displayable_or_fallback Vw List.dedup dlw [epw] none
      (some trw) isSetDedup_dedup).1 ⟨0, [100, 150, 200], .ok true⟩
    (by rw [sync_eval]; exact List.mem_singleton_self _)

/-! ### Claim C2 -/

/-- C2 counterexample: the palette's single candidate `(20,20,49)` is
displayable per §4.2, and the spec's center-then-global scan returns it; the
code's selector instead discards it — its average channel intensity `89/3`
is below the dark threshold 30 — and falls back to white.  The deduplication
of a singleton candidate list is the singleton itself under every set
iteration order, so the order left open by the Python `set` is forced here. -/
theorem C2_counterexample :
    is_color_displayable [20, 20, 49] = true ∧
    spec_select ⟨some [[20, 20, 49]], some [], []⟩ = [20, 20, 49] ∧
    select_displayable_color List.dedup ⟨some [[20, 20, 49]], some [], []⟩ =
      [255, 255, 255] ∧
    ([255, 255, 255] : Color) ≠ [20, 20, 49] := by
  refine ⟨by decide, by decide, ?_, by decide⟩
  simp only [select_displayable_color, select_from_candidates, is_color_too_dark_eq]
  decide

/-- C2 (amended): the selector scans the set-deduplicated union of the
center-focused and global candidates in an unspecified order, skipping any
candidate whose average channel intensity is below 30, and returns the first
displayable remaining candidate; in particular, whenever exactly one
displayable candidate passing that dark filter exists, it is returned
regardless of the deduplication order. -/
theorem C2_select_unique_displayable (dedupOrder : List Color → List Color)
    (hd : ∀ l, IsSetDedup l (dedupOrder l)) (pd : PaletteDict) (c : Color)
    (hmem : c ∈ pd.center_colors.getD [] ++ pd.global_colors.getD [])
    (hdisp : is_color_displayable c = true)
    (hdark : is_color_too_dark c = false)
    (huniq : ∀ d ∈ pd.center_colors.getD [] ++ pd.global_colors.getD [],
      is_color_displayable d = true → is_color_too_dark d = false → d = c) :
    select_displayable_color dedupOrder pd = c := by
  simp only [select_displayable_color, select_from_candidates]
  have hcl : c ∈ dedupOrder (pd.center_colors.getD [] ++ pd.global_colors.getD []) :=
    ((hd _).2 c).mpr hmem
  have hcf : c ∈ (dedupOrder (pd.center_colors.getD [] ++ pd.global_colors.getD [])).filter
      (fun x => !is_color_too_dark x) :=
    List.mem_filter.mpr ⟨hcl, by simp [hdark]⟩
  rcases hfind : ((dedupOrder (pd.center_colors.getD [] ++ pd.global_colors.getD [])).filter
      (fun x => !is_color_too_dark x)).find? (fun x => is_color_displayable x) with _ | x
  · exact absurd hdisp (by simpa using List.find?_eq_none.mp hfind c hcf)
  · show x = c
    have hx1 : is_color_displayable x = true := List.find?_some hfind
    have hx2 := List.mem_of_find?_eq_some hfind
    have hx3 : is_color_too_dark x = false := by
      simpa using List.of_mem_filter hx2
    have hx4 : x ∈ pd.center_colors.getD [] ++ pd.global_colors.getD [] :=
      ((hd _).2 x).mp (List.mem_of_mem_filter hx2)
    exact huniq x hx4 hx1 hx3

/-- C2 witness: on a palette whose unique candidate `(100,150,200)` is
displayable and not dark, the selector returns it. -/
theorem C2_select_unique_displayable_witness :
    select_displayable_color List.dedup ⟨some [[100, 150, 200]], some [], []⟩ =
      [100, 150, 200] :=
  C2_select_unique_displayable List.dedup isSetDedup_dedup
    ⟨some [[100, 150, 200]], some [], []⟩ [100, 150, 200]
    (by decide) (by decide)
    (by rw [is_color_too_dark_eq]; decide)
    (by simp only [is_color_too_dark_eq]; decide)

/-! ### Claim C3 -/

/-- C3 counterexample: the palette holds the single non-displayable candidate
`(250,250,250)`; the spec's fallback rule returns that first candidate, but
the code's selector returns the fixed white default instead. -/
theorem C3_counterexample :
    is_color_displayable [250, 250, 250] = false ∧
    spec_select ⟨some [[250, 250, 250]], some [], []⟩ = [250, 250, 250] ∧
    select_displayable_color List.dedup ⟨some [[250, 250, 250]], some [], []⟩ =
      [255, 255, 255] ∧
    ([255, 255, 255] : Color) ≠ [250, 250, 250] := by
  refine ⟨by decide, by decide, ?_, by decide⟩
  simp only [select_displayable_color, select_from_candidates, is_color_too_dark_eq]
  decide

/-- C3 (amended): whenever no candidate is displayable, the selector returns
the fixed default `(255,255,255)` — including when non-displayable candidates
exist; it never returns a raw first candidate. -/
theorem C3_no_displayable_yields_white (dedupOrder : List Color → List Color)
    (hd : ∀ l, IsSetDedup l (dedupOrder l)) (pd : PaletteDict)
    (h : ∀ c ∈ pd.center_colors.getD [] ++ pd.global_colors.getD [],
      is_color_displayable c = false) :
    select_displayable_color dedupOrder pd = [255, 255, 255] := by
  simp only [select_displayable_color, select_from_candidates]
  rcases hfind : ((dedupOrder (pd.center_colors.getD [] ++ pd.global_colors.getD [])).filter
      (fun x => !is_color_too_dark x)).find? (fun x => is_color_displayable x) with _ | x
  · rfl
  · have hx1 : is_color_displayable x = true := List.find?_some hfind
    have hx4 : x ∈ pd.center_colors.getD [] ++ pd.global_colors.getD [] :=
      ((hd _).2 x).mp (List.mem_of_mem_filter (List.mem_of_find?_eq_some hfind))
    exact absurd hx1 (by simp [h x hx4])

/-- C3 witness: with only the non-displayable candidate `(250,251,250)` the
selector returns the fixed white default. -/
theorem C3_no_displayable_yields_white_witness :
    select_displayable_color List.dedup ⟨some [[250, 251, 250]], some [], []⟩ =
      [255, 255, 255] :=
  C3_no_displayable_yields_white List.dedup isSetDedup_dedup
    ⟨some [[250, 251, 250]], some [], []⟩ (by decide)

/-! ### Claim C4 -/

/-- C4 counterexample: on bytes that do not decode (the `Vbad` backend), the
extraction call propagates the decode exception — only `ImportError` is
caught — and the sync step, catching it, applies nothing: the previously
applied color `(5,5,5)` stays in place and white is not substituted. -/
theorem C4_counterexample :
    extract_dominant_colors Vbad [0] 3 50 = .error .unidentifiedImage ∧
    sync_lighting Vbad List.dedup (fun _ => some [0]) [epw] (some [5, 5, 5])
      (some trw) = (some [5, 5, 5], []) ∧
    (some [5, 5, 5] : Option Color) ≠ some [255, 255, 255] := by
  refine ⟨by decide, by decide, by decide⟩

/-- C4 (amended): unreadable image bytes make the extraction call raise (its
handler catches only `ImportError`); the sync step's blanket handler then
catches the exception and logs it, applying no color and leaving the last
applied color unchanged — white is not substituted for decode failures. -/
theorem C4_decode_failure_raises_and_skips
    (V : Vision) (dedupOrder : List Color → List Color)
    (download : String → Option (List ℕ)) (endpoints : List Endpoint)
    (last : Option Color) (nm ar url : String) (bytes : List ℕ)
    (hcv : V.cv2_available = true)
    (hurl : url.isEmpty = false)
    (hdl : download url = some bytes)
    (hdec : V.clusters bytes 6 true = none) :
    extract_dominant_colors V bytes 3 50 = .error .unidentifiedImage ∧
    sync_lighting V dedupOrder download endpoints last (some ⟨nm, ar, some url⟩) =
      (last, []) := by
  have h1 : extract_colors_opencv V bytes 3 true = .error .unidentifiedImage := by
    unfold extract_colors_opencv
    simp [hcv, hdec]
  have h2 : extract_dominant_colors V bytes 3 50 = .error .unidentifiedImage := by
    unfold extract_dominant_colors
    simp [h1, bind, Except.bind]
  refine ⟨h2, ?_⟩
  simp only [sync_lighting, hurl, Bool.false_eq_true, if_false, hdl, h2,
    bind, Except.bind]

/-- C4 witness: the amended behavior at the concrete `Vbad` backend. -/
theorem C4_decode_failure_raises_and_skips_witness :
    extract_dominant_colors Vbad [0] 3 50 = .error .unidentifiedImage ∧
    sync_lighting Vbad List.dedup dlw [epw] (some [7, 7, 7])
      (some ⟨"Song", "Artist", some "url"⟩) = (some [7, 7, 7], []) :=
  C4_decode_failure_raises_and_skips Vbad List.dedup dlw [epw] (some [7, 7, 7])
    "Song" "Artist" "url" [1] rfl (by decide) rfl rfl

/-! ### Claim C5 -/

/-- C5 counterexample: applying the changed color `(100,150,200)` with one
endpoint whose `set_color` raises still updates `lastAppliedColor`, even
though no write succeeded. -/
theorem C5_counterexample :
    apply_color [epFail] none (some [100, 150, 200]) =
      (some [100, 150, 200], [⟨0, [100, 150, 200], .error .requestError⟩]) ∧
    (Except.error PyErr.requestError : Except PyErr Bool) ≠ .ok true := by
  refine ⟨by decide, by decide⟩

/-- C5 (amended): whenever a changed non-empty color is applied,
`_last_applied_color` is set to it before any device write and regardless of
the write outcomes; failed writes do not restore the previous value. -/
theorem C5_last_updated_regardless_of_writes
    (endpoints : List Endpoint) (last : Option Color) (c : Color)
    (hne : c ≠ []) (hch : some c ≠ last) :
    (apply_color endpoints last (some c)).1 = some c := by
  unfold apply_color
  have h1 : c.isEmpty = false := by
    cases c
    · exact absurd rfl hne
    · rfl
  simp [h1, hch]

/-- C5 witness: the amended update rule at a concrete changed color. -/
theorem C5_last_updated_regardless_of_writes_witness :
    (apply_color [] none (some [5, 5, 5])).1 = some [5, 5, 5] :=
  C5_last_updated_regardless_of_writes [] none [5, 5, 5] (by decide) (by decide)

/-! ### Claim C6 -/

/-- C6: an apply step whose color equals the current `lastAppliedColor` issues
no device write, and on the second of two consecutive polling ticks that fetch
the same track the device write call count is zero. -/
theorem C6_unchanged_color_never_resent :
    (∀ (endpoints : List Endpoint) (c : Color),
        (apply_color endpoints (some c) (some c)).2 = []) ∧
    (∀ (V : Vision) (dedupOrder : List Color → List Color)
        (download : String → Option (List ℕ)) (endpoints : List Endpoint)
        (s : LoopState) (now now' : ℚ) (t : Track),
        (polling_tick V dedupOrder download endpoints
            (polling_tick V dedupOrder download endpoints s now (some t)).1
            now' (some t)).2 = []) := by
  constructor
  · intro endpoints c
    unfold apply_color
    by_cases h : c.isEmpty = true <;> simp [h]
  · intro V dOrd dl endpoints s now now' t
    have h1 : ∀ s0 : LoopState,
        (polling_tick V dOrd dl endpoints s0 now (some t)).1.currentTrack =
          some t := by
      intro s0
      unfold polling_tick
      split
      rename_i t2 heq
      injection heq with h
      subst h
      split
      · rfl
      · next h2 =>
          push_neg at h2
          exact h2.symm
      rename_i heq2
      simp at heq2
    generalize hgen : (polling_tick V dOrd dl endpoints s now (some t)).1 = s1
    have h2 : s1.currentTrack = some t := by
      rw [← hgen]
      exact h1 s
    show (polling_tick V dOrd dl endpoints s1 now' (some t)).2 = []
    unfold polling_tick
    rw [h2]
    simp

/-! ### Claim C7 -/

/-- C7: the displayability predicate accepts an RGB triple if and only if
every channel lies in the closed range [20, 235]. -/
theorem C7_displayable_iff_channels_in_range (r g b : ℕ) :
    is_color_displayable [r, g, b] = true ↔
      ((20 ≤ r ∧ r ≤ 235) ∧ (20 ≤ g ∧ g ≤ 235) ∧ (20 ≤ b ∧ b ≤ 235)) := by
  simp [is_color_displayable]

/-! ### Claim C8 -/

/-- C8: for every successful extraction with both candidate lists present and
a focus fraction `f = focus_percentage / 100` in [0,1], the blended list is
exactly the spec's formula: the first `round(f·len(center))` center entries
followed by the first `round((1-f)·len(global))` global entries, with exact
duplicates removed preserving first-seen order (`round` being Python's
half-to-even rounding, as in the code). -/
theorem C8_blended_matches_spec (V : Vision) (image : List ℕ) (num : ℕ)
    (p : ℚ) (pd : PaletteDict) (center glob : List Color)
    (_hp0 : 0 ≤ p) (_hp1 : p ≤ 100)
    (hx : extract_dominant_colors V image num p = .ok pd)
    (hc : pd.center_colors = some center) (hg : pd.global_colors = some glob) :
    pd.blended_colors = spec_blended center glob (p / 100) := by
  unfold extract_dominant_colors at hx
  rcases h1 : extract_colors_opencv V image num true with e | c'
  · rcases e <;> simp only [h1, bind, Except.bind] at hx <;>
      first
        | (simp only [Except.ok.injEq] at hx
           rw [← hx] at hc
           exact absurd hc (by simp))
        | exact absurd hx (by simp)
  · rcases h2 : extract_colors_opencv V image num false with e | g'
    · rcases e <;> simp only [h1, h2, bind, Except.bind] at hx <;>
        first
          | (simp only [Except.ok.injEq] at hx
             rw [← hx] at hc
             exact absurd hc (by simp))
          | exact absurd hx (by simp)
    · simp only [h1, h2, bind, Except.bind, pure, Except.pure,
        Except.ok.injEq] at hx
      rw [← hx] at hc hg
      simp only [Option.some.injEq] at hc hg
      rw [← hx]
      subst hc
      subst hg
      rfl

/-- C8 witness: the blended list of the concrete `Vw` extraction equals the
spec formula's value. -/
theorem C8_blended_matches_spec_witness :
    PaletteDict.blended_colors
        ⟨some [[100, 150, 200]], some [[100, 150, 200]], []⟩ =
      spec_blended [[100, 150, 200]] [[100, 150, 200]] ((50 : ℚ) / 100) :=
  C8_blended_matches_spec Vw [1] 3 50
    ⟨some [[100, 150, 200]], some [[100, 150, 200]], []⟩
    [[100, 150, 200]] [[100, 150, 200]]
    (by norm_num) (by norm_num) extract_eval rfl rfl

/-! ### Claim C9 -/

/-- C9 counterexample: an endpoints configuration whose first entry lacks a
device id makes the endpoint constructor raise `ValueError`, yet endpoint
initialization absorbs the error and merely skips the entry; with a second,
well-formed entry the orchestrator starts normally — no failure reaches the
process boundary and startup is not prevented. -/
theorem C9_counterexample :
    smartthings_init (some "tok") ⟨"smartthings", none⟩ = .error .valueError ∧
    initialize_endpoints (some "tok") (fun _ => true)
        [⟨"smartthings", none⟩, ⟨"smartthings", some "lamp"⟩] =
      [⟨"lamp", some "tok"⟩] ∧
    start false [⟨"lamp", some "tok"⟩] = true := by
  refine ⟨rfl, by decide, rfl⟩

/-- C9 (amended): a configuration entry missing its device id makes the
endpoint constructor raise `ValueError`, but `_initialize_endpoints` catches
the error, logs it, and skips the entry, returning whatever the remaining
entries produce; no exception escapes, and the orchestrator merely declines to
launch its loop when no endpoint at all connected. -/
theorem C9_missing_device_id_absorbed
    (tok : Option String) (netOk : String → Bool)
    (cfg : EndpointConfig) (rest : List EndpointConfig)
    (ht : cfg.etype = "smartthings") (hid : cfg.device_id = none) :
    smartthings_init tok cfg = .error .valueError ∧
    initialize_endpoints tok netOk (cfg :: rest) =
      initialize_endpoints tok netOk rest ∧
    start false [] = false := by
  have h1 : smartthings_init tok cfg = .error .valueError := by
    unfold smartthings_init
    rw [hid]
  refine ⟨h1, ?_, rfl⟩
  unfold initialize_endpoints
  simp only [ht, h1, if_true]
  exact initialize_endpoints.eq_def tok netOk rest

/-- C9 witness: the amended behavior at a concrete misconfigured entry. -/
theorem C9_missing_device_id_absorbed_witness :
    smartthings_init none ⟨"smartthings", none⟩ = .error .valueError ∧
    initialize_endpoints none (fun _ => false) [⟨"smartthings", none⟩] =
      initialize_endpoints none (fun _ => false) [] ∧
    start false [] = false :=
  C9_missing_device_id_absorbed none (fun _ => false)
    ⟨"smartthings", none⟩ [] rfl rfl

/-! ### Claim C10 -/

/-- C10: an apply step invoked with an absent (`None`) or empty color is a
no-op at the apply boundary: no device write is issued and
`lastAppliedColor` is unchanged. -/
theorem C10_falsy_color_noop (endpoints : List Endpoint) (last : Option Color) :
    apply_color endpoints last none = (last, []) ∧
    apply_color endpoints last (some []) = (last, []) :=
  ⟨rfl, rfl⟩

end SmartSync
